import Mathlib

/-!
Shallow embedding of `src/app.py` (Instagram profile analysis pipeline):
the scraping/assembly function `scrape_instagram_profile_and_comments`,
the comment helper `_scrape_comments_for_single_post`, the AI scorer
`get_ai_analysis` (prompt previews and `Overall Score` extraction), and
the `perform_analysis` orchestration with its progress emissions and the
saved-profiles cache.

Python JSON-ish dictionaries are modelled with an explicit three-valued
`Field` type (key absent / key present with `None` / key present with a
value), because the code distinguishes these through `dict.get` defaults
and truthiness checks.  Operations that would raise a Python exception
are modelled with `Option` (`none` = an exception propagates).
-/

namespace App

/-- A dictionary field from the external JSON payloads: the key may be
absent, present but `None`, or present with a value. -/
inductive Field (α : Type) where
  | missing : Field α
  | null : Field α
  | val : α → Field α
deriving DecidableEq, Repr

/-- `d.get(k)` in Python: `None` for an absent or null field. -/
def Field.toOpt {α : Type} : Field α → Option α
  | .missing => none
  | .null => none
  | .val a => some a

/-- `int(d.get(k, 0) or 0)`: absent and `None` default to `0`; any other
integer (including a negative one) passes through unchanged. -/
def intOr0 : Field Int → Int
  | .missing => 0
  | .null => 0
  | .val v => v

/-- Python truthiness of an optional string (`None` and `""` are falsy). -/
def pyTruthy : Option String → Bool
  | none => false
  | some s => s ≠ ""

/-- ASCII whitespace as matched by `str.split()` and the regex class `\s`
(the unicode-only whitespace code points are not modelled; no claim
depends on them). -/
def isPySpace (c : Char) : Bool :=
  c == ' ' || c == '\t' || c == '\n' || c == '\r' || c == '\x0b' || c == '\x0c'

/-! ### Score extraction (`get_ai_analysis`, lines 318-365)

The code runs `re.search(r"Overall Score:\s*(\d+)\/10", analysis_text)`
and, on a match, clamps the captured integer with
`max(1, min(10, int(group)))`; otherwise (or when the API call failed or
returned no content) the score stays at its initial value `0`.

The regex has no backtracking behaviour to model: after the literal
`Overall Score:` the maximal whitespace run is consumed (a digit is not
whitespace), then the maximal digit run (`/` is not a digit), then the
literal `/10` must follow.  `re.search` takes the leftmost position at
which this matches. -/

/-- Numeric value of a digit run, as `int()` computes it. -/
def digitsVal (ds : List Char) : Nat :=
  ds.foldl (fun n c => n * 10 + (c.toNat - '0'.toNat)) 0

/-- Literal part of the score pattern. -/
def scorePat : List Char := "Overall Score:".data

/-- Try to match `Overall Score:\s*(\d+)/10` anchored at the head of
`s`; return the captured integer. -/
def matchScoreAt (s : List Char) : Option Nat :=
  if scorePat.isPrefixOf s then
    let r := (s.drop scorePat.length).dropWhile isPySpace
    let ds := r.takeWhile Char.isDigit
    if ds.isEmpty then none
    else if "/10".data.isPrefixOf (r.drop ds.length) then some (digitsVal ds)
    else none
  else none

/-- `re.search`: first position (left to right) where the pattern
matches. -/
def searchScore : List Char → Option Nat
  | [] => none
  | c :: rest =>
    match matchScoreAt (c :: rest) with
    | some n => some n
    | none => searchScore rest

/-- `re.search(r"Overall Score:\s*(\d+)\/10", t)` on a whole response
text, yielding the captured integer when a match exists. -/
def extract_overall_score (t : String) : Option Nat :=
  searchScore t.data

/-- Result of `get_ai_analysis`: the narrative text and the score. -/
structure AiResult where
  text : String
  score : Nat
deriving DecidableEq, Repr

/-- `get_ai_analysis`, reduced to its response handling: the argument is
`some content` when the API call succeeded and the response carried a
non-empty `choices[0].message.content`, and `none` when the call raised
or the content was absent (the exact failure text varies with the
exception message and is not claimed about; the score is `0` in every
such branch). -/
def get_ai_analysis (response : Option String) : AiResult :=
  match response with
  | none => { text := "AI analysis could not be generated.", score := 0 }
  | some content =>
    { text := content
      score :=
        match extract_overall_score content with
        | none => 0
        | some n => max 1 (min 10 n) }

/-! ### Hashtag derivation (lines 190 and 200)

`[tag.strip("#") for tag in post_copy.get('caption', '').split() if tag.startswith('#')]`.
`str.split()` with no argument splits on whitespace runs and never yields
empty tokens; `str.strip("#")` removes ALL leading and trailing `'#'`
characters. -/

/-- Accumulator loop of Python `str.split()` (no separator argument). -/
def pySplitAux : List Char → List Char → List (List Char)
  | [], acc => if acc.isEmpty then [] else [acc.reverse]
  | c :: rest, acc =>
    if isPySpace c then
      if acc.isEmpty then pySplitAux rest [] else acc.reverse :: pySplitAux rest []
    else pySplitAux rest (c :: acc)

/-- Python `str.split()`: whitespace-run splitting, empty tokens dropped. -/
def pySplit (s : List Char) : List (List Char) := pySplitAux s []

/-- Python `tag.strip("#")`: drop every leading and trailing `'#'`. -/
def pyStripHash (t : List Char) : List Char :=
  ((t.dropWhile (· == '#')).reverse.dropWhile (· == '#')).reverse

/-- `tag.startswith('#')`. -/
def startsWithHash : List Char → Bool
  | [] => false
  | c :: _ => c == '#'

/-- Line 190/200: the `hashtags` list derived from a (non-`None`) caption. -/
def derive_hashtags (caption : String) : List String :=
  ((pySplit caption.data).filter startsWithHash).map fun t => ⟨pyStripHash t⟩

/-! ### Post records and per-post finalization (lines 177-204) -/

/-- A comment record returned by the comment scraper; only the `text`
field is ever read (line 314, with default `'No text available for
interaction'`). -/
structure Comment where
  text : Field String
deriving DecidableEq, Repr

/-- A post stub from `profile_data["latestPosts"]`, restricted to the
fields the pipeline reads. -/
structure PostStub where
  shortCode : Field String
  caption : Field String
  likesCount : Field Int
  commentsCount : Field Int
  typename : Field String
deriving DecidableEq, Repr

/-- `_scrape_comments_for_single_post` (lines 98-118): a falsy shortcode
(`None` or `""`) short-circuits to `[]`; any exception from the remote
call is caught and also yields `[]`.  `fetch sc = none` models the remote
call raising. -/
def scrape_comments_for_single_post (fetch : String → Option (List Comment))
    (shortcode : Option String) : List Comment :=
  match shortcode with
  | none => []
  | some sc => if sc = "" then [] else (fetch sc).getD []

/-- A finalized post as appended to `scraped_data["latestPosts"]`. -/
structure FinalPost where
  stub : PostStub
  comments : List Comment
  hashtags : List String
  likesCount : Int
  commentsCount : Int
  mediaType : String
deriving DecidableEq, Repr

/-- `post_copy.get('caption', '')` followed by `.split()`: an absent
caption defaults to `""`, while a caption that is present but `None`
makes `.split()` raise `AttributeError` (modelled as `none`). -/
def captionForSplit : Field String → Option String
  | .missing => some ""
  | .null => none
  | .val s => some s

/-- Left-to-right non-overlapping removal of `"Graph"` occurrences, as
`str.replace('Graph', '')` performs it; the fuel argument (instantiated
with the string length, an upper bound on the steps) keeps the recursion
structural. -/
def removeGraphFuel : Nat → List Char → List Char
  | 0, s => s
  | _ + 1, [] => []
  | n + 1, c :: rest =>
    if "Graph".data.isPrefixOf (c :: rest) then
      removeGraphFuel n ((c :: rest).drop 5)
    else c :: removeGraphFuel n rest

/-- `s.replace('Graph', '')`. -/
def pyRemoveGraph (s : String) : String := ⟨removeGraphFuel s.data.length s.data⟩

/-- `original_post.get('__typename', '').replace('Graph', '')`: absent
defaults to `""`, a `None` value makes `.replace` raise. -/
def mediaTypeOf : Field String → Option String
  | .missing => some ""
  | .null => none
  | .val s => some (pyRemoveGraph s)

/-- Finalization of one post (both the success branch, lines 186-194,
and the fallback branch, lines 195-204, perform the same caption/count/
mediaType operations — the fallback re-raises on the same inputs — so a
single `Option`-valued function models them; `none` means the exception
escapes to the outer handler at line 210). -/
def finalizePost (stub : PostStub) (comments : List Comment) : Option FinalPost :=
  match captionForSplit stub.caption, mediaTypeOf stub.typename with
  | some cap, some mt =>
    some { stub := stub
           comments := comments
           hashtags := derive_hashtags cap
           likesCount := intOr0 stub.likesCount
           commentsCount := intOr0 stub.commentsCount
           mediaType := mt }
  | _, _ => none

/-- The reassembly loop (lines 184-204): posts are appended in the
iteration order of the `comment_futures` dict, which is its insertion
order (Python dicts preserve insertion order), i.e. stub order; the
partial list is discarded when an iteration raises. -/
def mapOpt {α β : Type} (f : α → Option β) : List α → Option (List β)
  | [] => some []
  | a :: l =>
    match f a, mapOpt f l with
    | some b, some l' => some (b :: l')
    | _, _ => none

/-! ### Profile assembly (`scrape_instagram_profile_and_comments`, lines 120-212) -/

/-- One item of the profile scraper's dataset, restricted to the fields
the pipeline reads. -/
structure ProfileData where
  username : Field String
  fullName : Field String
  followersCount : Field Int
  followsCount : Field Int
  biography : Field String
  profilePicUrl : Field String
  latestPosts : Field (List PostStub)
deriving Repr

/-- The number of recent posts to scrape (line 26). -/
def NUM_POSTS_TO_SCRAPE : Nat := 5

/-- `scraped_data["profile"]` (lines 160-169). -/
structure ScrapedProfile where
  username : Option String
  fullName : Option String
  followersCount : Int
  followsCount : Int
  bio : Option String
  profilePicUrl : Option String
  profilePicBase64 : String
  profileUrl : String
deriving DecidableEq, Repr

/-- The value of `scrape_instagram_profile_and_comments` on success. -/
structure ScrapedData where
  profile : ScrapedProfile
  latestPosts : List FinalPost
deriving DecidableEq, Repr

/-- Python `f"{x}"` on an optional string: `None` prints as `"None"`. -/
def pyStr : Option String → String
  | none => "None"
  | some s => s

/-- `fetch_image_as_base64` (lines 77-96): falsy URL or any request
failure yields `""`; `imageFetch u = none` models a raised request
exception. -/
def fetch_image_as_base64 (imageFetch : String → Option String)
    (url : Option String) : String :=
  match url with
  | none => ""
  | some u => if u = "" then "" else (imageFetch u).getD ""

/-- `posts = profile_data.get("latestPosts", [])` followed by
`if posts:`: absent or `None` or `[]` all lead to no post processing. -/
def postsOf : Field (List PostStub) → List PostStub
  | .missing => []
  | .null => []
  | .val l => l

/-- `scrape_instagram_profile_and_comments` (lines 120-212).
`profileItems` is the profile scraper's dataset; `commentFetch` is the
remote comment scraper (`none` = that call raises).  Returns `none` on
failure: empty dataset (lines 149-151) or an exception escaping to the
outer handler (lines 210-212). -/
def scrape_instagram_profile_and_comments (profileItems : List ProfileData)
    (imageFetch : String → Option String)
    (commentFetch : String → Option (List Comment)) : Option ScrapedData :=
  match profileItems with
  | [] => none
  | pd :: _ =>
    let profile : ScrapedProfile :=
      { username := pd.username.toOpt
        fullName := pd.fullName.toOpt
        followersCount := intOr0 pd.followersCount
        followsCount := intOr0 pd.followsCount
        bio := pd.biography.toOpt
        profilePicUrl := pd.profilePicUrl.toOpt
        profilePicBase64 := fetch_image_as_base64 imageFetch pd.profilePicUrl.toOpt
        profileUrl := "https://www.instagram.com/" ++ pyStr pd.username.toOpt ++ "/" }
    let posts := postsOf pd.latestPosts
    (mapOpt
        (fun p =>
          finalizePost p
            (scrape_comments_for_single_post commentFetch p.shortCode.toOpt))
        (posts.take NUM_POSTS_TO_SCRAPE)).map
      fun lp => { profile := profile, latestPosts := lp }

/-! ### Prompt construction for one post (lines 308-316) -/

/-- Python string slicing `s[:n]`: the first `n` characters. -/
def pyTake (s : String) (n : Nat) : String := ⟨s.data.take n⟩

/-- `(post['caption'][:100] + '...') if post['caption'] else 'No caption'`
(line 309): a missing key raises `KeyError` (`none`); `None` and `""` are
falsy and give `'No caption'`; otherwise the first 100 characters plus an
unconditional `'...'`. -/
def caption_preview : Field String → Option String
  | .missing => none
  | .null => some "No caption"
  | .val s => some (if s = "" then "No caption" else pyTake s 100 ++ "...")

/-- `post['comments'][0].get('text', 'No text available for interaction')`
(line 314). -/
def firstCommentText : Field String → Option String
  | .missing => some "No text available for interaction"
  | .null => none
  | .val s => some s

/-- `(first_comment_text[:50] + '...') if first_comment_text else 'No text'`
(line 315). -/
def first_comment_preview (c : Comment) : String :=
  match firstCommentText c.text with
  | none => "No text"
  | some s => if s = "" then "No text" else pyTake s 50 ++ "..."

/-- The per-post prompt fragment appended at lines 312 and 316 (`none`
when the caption key is absent and the f-string raises). -/
def post_prompt_segment (idx : Nat) (post : FinalPost) : Option String :=
  (caption_preview post.stub.caption).map fun cp =>
    let hashtagsStr :=
      if post.hashtags.isEmpty then ""
      else " #" ++ String.intercalate " #" post.hashtags
    let url :=
      match post.stub.shortCode.toOpt with
      | some sc =>
        if sc = "" then "N/A" else "https://www.instagram.com/p/" ++ sc ++ "/"
      | none => "N/A"
    let base :=
      "\n- Content " ++ toString (idx + 1) ++ " (Type: " ++ post.mediaType ++
        ", URL: " ++ url ++ ", Likes: " ++ toString post.likesCount ++
        ", Comments: " ++ toString post.commentsCount ++ "): \"" ++ cp ++
        hashtagsStr ++ "\""
    match post.comments with
    | [] => base
    | c :: _ => base ++ " First interaction: \"" ++ first_comment_preview c ++ "\""

/-! ### Orchestration (`perform_analysis`, lines 397-439)

Progress emissions (`update_progress` calls) are collected as a trace of
`(status label, percentage)` pairs in emission order.  The `analyze`
route (line 389) emits the initial `('Initializing analysis...', 0)`
before redirecting to the loading page that calls `perform_analysis`. -/

/-- Outcome status of the `perform_analysis` route: the JSON body is
`complete (cached)` / `complete` / the handled error response of lines
420-424; `crashed` is an uncaught exception escaping the route (the web
framework then returns a generic 500 page and the handler writes no
further progress and saves nothing). -/
inductive RunStatus where
  | completeCached
  | complete
  | error
  | crashed
deriving DecidableEq, Repr

/-- One entry of `saved_profiles.json` (lines 430-433). -/
structure FullAnalysisData where
  profile_data : ScrapedData
  ai_analysis : AiResult
deriving DecidableEq, Repr

/-- Lookup in the saved-profiles store (`username in saved_profiles`). -/
def lookupProfile (m : List (String × FullAnalysisData)) (u : String) :
    Option FullAnalysisData :=
  (m.find? fun kv => kv.1 = u).map (·.2)

/-- `save_profile_data` (lines 50-56): `saved_profiles[username] = data`. -/
def save_profile_data (m : List (String × FullAnalysisData)) (u : String)
    (v : FullAnalysisData) : List (String × FullAnalysisData) :=
  (u, v) :: m.filter fun kv => kv.1 ≠ u

/-- Progress emissions made inside
`scrape_instagram_profile_and_comments`: 20 before the profile fetch
(line 133), 50 before the comment fan-out (line 174, only reached when
the dataset was non-empty). -/
def scrape_progress_trace (profileItems : List ProfileData) : List (String × Nat) :=
  ("Scraping profile data...", 20) ::
    match profileItems with
    | [] => []
    | _ :: _ => [("Scraping posts and comments (concurrently)...", 50)]

/-- Number of remote scraper calls a run makes: one profile-scraper call
plus one comment-scraper call per submitted post with a truthy
shortcode (the helper returns early on falsy shortcodes, line 103). -/
def commentCallCount (profileItems : List ProfileData) : Nat :=
  match profileItems with
  | [] => 0
  | pd :: _ =>
    ((postsOf pd.latestPosts).take NUM_POSTS_TO_SCRAPE).countP fun p =>
      pyTruthy p.shortCode.toOpt

/-- The prompt loop of `get_ai_analysis` (lines 308-316) runs OUTSIDE
the try block that only starts at line 322: `post['caption']` at line
309 raises an uncaught `KeyError` whenever a finalized post lacks the
caption key (a stub whose caption field was absent; a present-but-null
caption cannot reach this point, since it already failed the scrape).
The exception escapes the route after the 80% write of line 221 and
before the API call. -/
def promptBuildRaises (sd : ScrapedData) : Bool :=
  sd.latestPosts.any fun fp =>
    match fp.stub.caption with
    | Field.missing => true
    | _ => false

/-- Everything observable about one `perform_analysis` request. -/
structure PerformOutcome where
  status : RunStatus
  trace : List (String × Nat)
  savedProfiles : List (String × FullAnalysisData)
  scraperCalls : Nat
  aiCalls : Nat
deriving DecidableEq, Repr

/-- `perform_analysis` (lines 397-439) for a session holding `username`:
cached hit short-circuits (lines 407-412); otherwise the scrape runs,
a `None` result is reported as an error with a progress regression to 0
(lines 420-424).  On a successful scrape, `get_ai_analysis` first writes
80% (line 221) and then builds the prompt: if some finalized post lacks
the caption key, the uncaught `KeyError` of line 309 crashes the request
right there — no 100% write, nothing saved.  Otherwise the AI call is
made, the combined data is saved, and progress reaches 100
(lines 426-439). -/
def perform_analysis (saved : List (String × FullAnalysisData)) (username : String)
    (profileItems : List ProfileData) (imageFetch : String → Option String)
    (commentFetch : String → Option (List Comment))
    (aiResponse : Option String) : PerformOutcome :=
  match lookupProfile saved username with
  | some _ =>
    { status := .completeCached
      trace := [("Analysis complete (cached)!", 100)]
      savedProfiles := saved
      scraperCalls := 0
      aiCalls := 0 }
  | none =>
    match scrape_instagram_profile_and_comments profileItems imageFetch commentFetch with
    | none =>
      { status := .error
        trace := scrape_progress_trace profileItems ++ [("Error during data retrieval!", 0)]
        savedProfiles := saved
        scraperCalls := 1 + commentCallCount profileItems
        aiCalls := 0 }
    | some sd =>
      if promptBuildRaises sd then
        { status := .crashed
          trace := scrape_progress_trace profileItems ++
            [("Analyzing with AI...", 80)]
          savedProfiles := saved
          scraperCalls := 1 + commentCallCount profileItems
          aiCalls := 0 }
      else
        let ai := get_ai_analysis aiResponse
        { status := .complete
          trace := scrape_progress_trace profileItems ++
            [("Analyzing with AI...", 80), ("Analysis complete!", 100)]
          savedProfiles := save_profile_data saved username ⟨sd, ai⟩
          scraperCalls := 1 + commentCallCount profileItems
          aiCalls := 1 }

/-- The whole flow for one identity: the `analyze` route's initial
progress write (line 389) followed by `perform_analysis`. -/
def analyze_then_perform (saved : List (String × FullAnalysisData)) (username : String)
    (profileItems : List ProfileData) (imageFetch : String → Option String)
    (commentFetch : String → Option (List Comment))
    (aiResponse : Option String) : PerformOutcome :=
  let r := perform_analysis saved username profileItems imageFetch commentFetch aiResponse
  { r with trace := ("Initializing analysis...", 0) :: r.trace }

/-! ### Helper lemmas -/

theorem mapOpt_cons {α β : Type} (f : α → Option β) (a : α) (l : List α) :
    mapOpt f (a :: l) =
      match f a, mapOpt f l with
      | some b, some l' => some (b :: l')
      | _, _ => none := rfl

theorem mapOpt_cons_elim {α β : Type} {f : α → Option β} {a : α} {l : List α}
    {r : List β} (h : mapOpt f (a :: l) = some r) :
    ∃ b r', f a = some b ∧ mapOpt f l = some r' ∧ r = b :: r' := by
  rw [mapOpt_cons] at h
  cases hfa : f a with
  | none => rw [hfa] at h; simp at h
  | some b =>
    rw [hfa] at h
    cases hml : mapOpt f l with
    | none => rw [hml] at h; simp at h
    | some r' =>
      rw [hml] at h
      exact ⟨b, r', rfl, rfl, (Option.some.inj h).symm⟩

theorem mapOpt_length {α β : Type} {f : α → Option β} {l : List α} {r : List β}
    (h : mapOpt f l = some r) : r.length = l.length := by
  induction l generalizing r with
  | nil =>
    simp only [mapOpt] at h
    cases h
    rfl
  | cons a l ih =>
    obtain ⟨b, r', _, hml, hr⟩ := mapOpt_cons_elim h
    subst hr
    simp [ih hml]

theorem mapOpt_mem_elim {α β : Type} {f : α → Option β} {l : List α} {r : List β}
    (h : mapOpt f l = some r) : ∀ b ∈ r, ∃ a ∈ l, f a = some b := by
  induction l generalizing r with
  | nil =>
    simp only [mapOpt] at h
    cases h
    intro b hb
    simp at hb
  | cons a l ih =>
    obtain ⟨b₀, r', hfa, hml, hr⟩ := mapOpt_cons_elim h
    subst hr
    intro b hb
    rcases List.mem_cons.mp hb with hb | hb
    · exact ⟨a, List.mem_cons_self a l, hb ▸ hfa⟩
    · obtain ⟨a', ha', hfa'⟩ := ih hml b hb
      exact ⟨a', List.mem_cons_of_mem a ha', hfa'⟩

theorem mapOpt_mem_intro {α β : Type} {f : α → Option β} {l : List α} {r : List β}
    (h : mapOpt f l = some r) : ∀ a ∈ l, ∃ b ∈ r, f a = some b := by
  induction l generalizing r with
  | nil =>
    intro a ha
    simp at ha
  | cons a₀ l ih =>
    obtain ⟨b₀, r', hfa, hml, hr⟩ := mapOpt_cons_elim h
    subst hr
    intro a ha
    rcases List.mem_cons.mp ha with ha | ha
    · exact ⟨b₀, List.mem_cons_self b₀ r', ha ▸ hfa⟩
    · obtain ⟨b, hb, hfb⟩ := ih hml a ha
      exact ⟨b, List.mem_cons_of_mem b₀ hb, hfb⟩

theorem mapOpt_map_retract {α β : Type} {f : α → Option β} {g : β → α}
    (hg : ∀ a b, f a = some b → g b = a) {l : List α} {r : List β}
    (h : mapOpt f l = some r) : r.map g = l := by
  induction l generalizing r with
  | nil =>
    simp only [mapOpt] at h
    cases h
    rfl
  | cons a l ih =>
    obtain ⟨b, r', hfa, hml, hr⟩ := mapOpt_cons_elim h
    subst hr
    simp [hg a b hfa, ih hml]

theorem mapOpt_eq_none_of_mem {α β : Type} {f : α → Option β} {l : List α} {a : α}
    (ha : a ∈ l) (hfa : f a = none) : mapOpt f l = none := by
  induction l with
  | nil => simp at ha
  | cons a₀ l ih =>
    rcases List.mem_cons.mp ha with h | h
    · subst h
      rw [mapOpt_cons, hfa]
    · rw [mapOpt_cons, ih h]
      cases f a₀ <;> rfl

/-! ### Claim C1 -/

/-- Claim C1: for every AI-analysis run, the returned score is an integer
in [0,10]; it is exactly 0 when the response text lacks a substring
matching `Overall Score: <int>/10` or when the API call fails, and when
the pattern is present the extracted integer is clamped into [1,10], so
a response containing `Overall Score: 14/10` yields score 10. -/
theorem ai_score_bounded_and_clamped (response : Option String) :
    (App.get_ai_analysis response).score ≤ 10 ∧
    ((App.get_ai_analysis response).score = 0 ↔
      response.bind App.extract_overall_score = none) ∧
    (App.get_ai_analysis (some "Overall Score: 14/10 strong growth")).score = 10 := by
  refine ⟨?_, ?_, by decide⟩
  · cases response with
    | none => simp [App.get_ai_analysis]
    | some t =>
      simp only [App.get_ai_analysis]
      cases App.extract_overall_score t with
      | none => simp
      | some n => simp
  · cases response with
    | none => simp [App.get_ai_analysis]
    | some t =>
      simp only [App.get_ai_analysis, Option.some_bind]
      cases App.extract_overall_score t with
      | none => simp
      | some n => simp

/-! ### Claim C7: hashtag derivation

A second formulation of the derivation following the spec's words
("splitting the caption on whitespace", "tokens starting with '#'",
stripping of '#' characters), written with different machinery
(word-at-a-time recursion instead of the accumulator loop, and direct
recursion instead of `dropWhile`), plus the equivalence proof. -/

/-- Splitting a character sequence into maximal whitespace-free words,
defined by taking one whole word at a time. -/
def splitWords : List Char → List (List Char)
  | [] => []
  | c :: rest =>
    if isPySpace c then splitWords rest
    else (c :: rest.takeWhile fun x => !isPySpace x) ::
      splitWords (rest.dropWhile fun x => !isPySpace x)
termination_by s => s.length
decreasing_by
  · simp only [List.length_cons]
    omega
  · simp only [List.length_cons]
    have : (rest.dropWhile fun x => !isPySpace x).length ≤ rest.length := by
      induction rest with
      | nil => simp
      | cons a l ih =>
        rw [List.dropWhile_cons]
        split
        · simp only [List.length_cons]
          omega
        · simp
    omega

/-- Removing every leading `'#'`, by direct recursion. -/
def dropLeadingHashes : List Char → List Char
  | [] => []
  | c :: rest => if c = '#' then dropLeadingHashes rest else c :: rest

/-- The hashtag derivation as the spec words it (with the strip corrected
to both ends): split the caption on whitespace, keep the tokens starting
with `'#'` in caption order, and remove all leading and trailing `'#'`
characters from each. -/
def hashtags_spec (caption : String) : List String :=
  ((splitWords caption.data).filter startsWithHash).map fun t =>
    ⟨(dropLeadingHashes (dropLeadingHashes t).reverse).reverse⟩

theorem dropLeadingHashes_eq_dropWhile (t : List Char) :
    dropLeadingHashes t = t.dropWhile (· == '#') := by
  induction t with
  | nil => rfl
  | cons c rest ih =>
    rw [List.dropWhile_cons]
    by_cases hc : c = '#'
    · simp [dropLeadingHashes, hc, ih]
    · simp [dropLeadingHashes, hc]

theorem splitWords_nil : splitWords [] = [] := by
  rw [splitWords.eq_def]

theorem splitWords_cons (c : Char) (rest : List Char) :
    splitWords (c :: rest) =
      if isPySpace c then splitWords rest
      else (c :: rest.takeWhile fun x => !isPySpace x) ::
        splitWords (rest.dropWhile fun x => !isPySpace x) := by
  rw [splitWords.eq_def]

theorem pySplitAux_nil (acc : List Char) :
    pySplitAux [] acc = if acc.isEmpty then [] else [acc.reverse] := rfl

theorem pySplitAux_cons (c : Char) (rest acc : List Char) :
    pySplitAux (c :: rest) acc =
      if isPySpace c then
        (if acc.isEmpty then pySplitAux rest []
         else acc.reverse :: pySplitAux rest [])
      else pySplitAux rest (c :: acc) := rfl

theorem pySplitAux_eq_splitWords (s : List Char) : ∀ acc : List Char,
    pySplitAux s acc =
      if acc.isEmpty then splitWords s
      else (acc.reverse ++ s.takeWhile fun x => !isPySpace x) ::
        splitWords (s.dropWhile fun x => !isPySpace x) := by
  induction s with
  | nil =>
    intro acc
    cases acc <;> simp [pySplitAux_nil, splitWords_nil]
  | cons c rest ih =>
    intro acc
    rw [pySplitAux_cons, splitWords_cons, List.takeWhile_cons, List.dropWhile_cons]
    by_cases hsp : isPySpace c
    · cases acc <;> simp [hsp, ih, splitWords_cons]
    · rw [if_neg hsp, ih (c :: acc)]
      cases acc <;> simp [hsp]

theorem pySplit_eq_splitWords (s : List Char) : pySplit s = splitWords s := by
  rw [pySplit, pySplitAux_eq_splitWords]
  simp

/-- The derivation exactly as claim C7 states it: only the single
leading `'#'` is removed from each kept token and the rest of the token
is unchanged. -/
def stripOneLeadingHash : List Char → List Char
  | '#' :: rest => rest
  | t => t

/-- Hashtags as claim C7 words them. -/
def hashtags_claimed (caption : String) : List String :=
  ((pySplit caption.data).filter startsWithHash).map fun t =>
    ⟨stripOneLeadingHash t⟩

/-- Claim C7 is false as stated: on the caption `"#tag#"` the code keeps
the token `"#tag#"` and `str.strip("#")` also removes the TRAILING `'#'`
(and every further leading one), yielding `"tag"`, not the
`"tag#"` the claim's leading-only stripping predicts. -/
theorem hashtags_counterexample :
    derive_hashtags "#tag#" = ["tag"] ∧
    hashtags_claimed "#tag#" = ["tag#"] ∧
    derive_hashtags "#tag#" ≠ hashtags_claimed "#tag#" := by
  refine ⟨by decide, by decide, ?_⟩
  decide

/-- Claim C7 (amended): for every caption, the hashtags field equals the
result of splitting the caption on whitespace, keeping exactly the
tokens that start with `'#'` in caption order, with ALL leading and
trailing `'#'` characters removed from each kept token. -/
theorem hashtags_eq_spec (caption : String) :
    derive_hashtags caption = hashtags_spec caption := by
  rw [derive_hashtags, hashtags_spec, pySplit_eq_splitWords]
  refine List.map_congr_left fun t _ => ?_
  rw [pyStripHash]
  rw [dropLeadingHashes_eq_dropWhile, dropLeadingHashes_eq_dropWhile]

/-! ### Claims C2, C9, C10, C6: assembly -/

theorem finalizePost_some {stub : PostStub} {comments : List Comment} {fp : FinalPost}
    (h : finalizePost stub comments = some fp) :
    fp.stub = stub ∧ fp.comments = comments ∧
    fp.likesCount = intOr0 stub.likesCount ∧
    fp.commentsCount = intOr0 stub.commentsCount := by
  unfold finalizePost at h
  cases hc : captionForSplit stub.caption <;> rw [hc] at h
  · simp at h
  · cases hm : mediaTypeOf stub.typename <;> rw [hm] at h
    · simp at h
    · injection h with h
      subst h
      exact ⟨rfl, rfl, rfl, rfl⟩

theorem finalizePost_caption_null {stub : PostStub} {comments : List Comment}
    (h : stub.caption = .null) : finalizePost stub comments = none := by
  unfold finalizePost
  rw [h]
  cases mediaTypeOf stub.typename <;> rfl

theorem scrape_cons_elim {pd : ProfileData} {rest : List ProfileData}
    {imf : String → Option String} {cf : String → Option (List Comment)}
    {sd : ScrapedData}
    (h : scrape_instagram_profile_and_comments (pd :: rest) imf cf = some sd) :
    mapOpt (fun p => finalizePost p
        (scrape_comments_for_single_post cf p.shortCode.toOpt))
      ((postsOf pd.latestPosts).take NUM_POSTS_TO_SCRAPE) = some sd.latestPosts ∧
    sd.profile.followersCount = intOr0 pd.followersCount ∧
    sd.profile.followsCount = intOr0 pd.followsCount := by
  simp only [scrape_instagram_profile_and_comments] at h
  rw [Option.map_eq_some'] at h
  obtain ⟨lp, hlp, hsd⟩ := h
  subst hsd
  exact ⟨hlp, rfl, rfl⟩

/-- Claim C2: for every successful assembly run, each of the first
`NUM_POSTS_TO_SCRAPE = 5` post stubs appears in the final `latestPosts`
sequence; when a post's comment fetch raises, or the post lacks a truthy
short identifier, its comments field is the empty sequence; and the
final sequence length equals `min(number of stubs, 5)` regardless of how
many comment fetches failed. -/
theorem posts_retained_on_success (pd : ProfileData) (rest : List ProfileData)
    (imf : String → Option String) (cf : String → Option (List Comment))
    (sd : ScrapedData)
    (h : scrape_instagram_profile_and_comments (pd :: rest) imf cf = some sd) :
    sd.latestPosts.length = min (postsOf pd.latestPosts).length NUM_POSTS_TO_SCRAPE ∧
    (∀ p ∈ (postsOf pd.latestPosts).take NUM_POSTS_TO_SCRAPE,
      ∃ fp ∈ sd.latestPosts, fp.stub = p) ∧
    (∀ fp ∈ sd.latestPosts,
      fp.comments = scrape_comments_for_single_post cf fp.stub.shortCode.toOpt) ∧
    (∀ fp ∈ sd.latestPosts,
      (fp.stub.shortCode.toOpt = none ∨ fp.stub.shortCode.toOpt = some "" ∨
        (∃ sc, fp.stub.shortCode.toOpt = some sc ∧ cf sc = none)) →
      fp.comments = []) := by
  obtain ⟨hmap, -, -⟩ := scrape_cons_elim h
  have hcomm : ∀ fp ∈ sd.latestPosts,
      fp.comments = scrape_comments_for_single_post cf fp.stub.shortCode.toOpt := by
    intro fp hfp
    obtain ⟨a, _, hfa⟩ := mapOpt_mem_elim hmap fp hfp
    obtain ⟨hstub, hcom, -, -⟩ := finalizePost_some hfa
    rw [hcom, hstub]
  refine ⟨?_, ?_, hcomm, ?_⟩
  · rw [mapOpt_length hmap, List.length_take, Nat.min_comm]
  · intro p hp
    obtain ⟨fp, hfp, hfa⟩ := mapOpt_mem_intro hmap p hp
    exact ⟨fp, hfp, (finalizePost_some hfa).1⟩
  · intro fp hfp hcase
    rw [hcomm fp hfp]
    rcases hcase with hc | hc | ⟨sc, hc, hnone⟩
    · rw [hc]
      rfl
    · rw [hc]
      rfl
    · rw [hc]
      simp [scrape_comments_for_single_post, hnone]

/-- Claim C9: for every assembly run in which each per-post finalization
step succeeds, the final `latestPosts` sequence lists the posts in
exactly the order of the post stubs returned by the profile fetch
(submission order): the loop iterates the `comment_futures` dict in
insertion order and blocks on each result in turn, so concurrent
completion order never affects the output order. -/
theorem posts_in_submission_order (pd : ProfileData) (rest : List ProfileData)
    (imf : String → Option String) (cf : String → Option (List Comment))
    (sd : ScrapedData)
    (h : scrape_instagram_profile_and_comments (pd :: rest) imf cf = some sd) :
    sd.latestPosts.map FinalPost.stub =
      (postsOf pd.latestPosts).take NUM_POSTS_TO_SCRAPE := by
  obtain ⟨hmap, -, -⟩ := scrape_cons_elim h
  exact mapOpt_map_retract (fun a b hb => (finalizePost_some hb).1) hmap

/-- Claim C10: for every run in which some post among the first 5 stubs
carries a caption field that is present but null, the entire assembly
fails (returns the failure marker `None`): the hashtag derivation raises
on the null caption, the fallback branch re-raises on the same null
caption, and the outer handler converts this into a whole-run failure,
so no posts at all are returned for that profile. -/
theorem null_caption_fails_run (pd : ProfileData) (rest : List ProfileData)
    (imf : String → Option String) (cf : String → Option (List Comment))
    (p : PostStub)
    (hp : p ∈ (postsOf pd.latestPosts).take NUM_POSTS_TO_SCRAPE)
    (hnull : p.caption = .null) :
    scrape_instagram_profile_and_comments (pd :: rest) imf cf = none := by
  simp only [scrape_instagram_profile_and_comments]
  rw [mapOpt_eq_none_of_mem hp (finalizePost_caption_null hnull)]
  rfl

theorem intOr0_nonneg {f : Field Int} (h : ∀ v, f = Field.val v → 0 ≤ v) :
    0 ≤ intOr0 f := by
  cases f with
  | missing => exact le_refl 0
  | null => exact le_refl 0
  | val v => exact h v rfl

/-- Claim C6 (amended): in every assembled record the numeric fields
`followersCount`, `followsCount`, `likesCount` and `commentsCount` are
present integers that default to 0 when the source omits the field or
supplies null; they are non-negative whenever the source-supplied values
are, but a negative source value passes through unclamped. -/
theorem counts_default_and_pass_through (pd : ProfileData) (rest : List ProfileData)
    (imf : String → Option String) (cf : String → Option (List Comment))
    (sd : ScrapedData)
    (h : scrape_instagram_profile_and_comments (pd :: rest) imf cf = some sd) :
    sd.profile.followersCount = intOr0 pd.followersCount ∧
    sd.profile.followsCount = intOr0 pd.followsCount ∧
    (∀ fp ∈ sd.latestPosts,
      fp.likesCount = intOr0 fp.stub.likesCount ∧
      fp.commentsCount = intOr0 fp.stub.commentsCount) ∧
    intOr0 Field.missing = 0 ∧ intOr0 Field.null = 0 ∧
    ((∀ v, pd.followersCount = Field.val v → 0 ≤ v) →
      0 ≤ sd.profile.followersCount) ∧
    ((∀ v, pd.followsCount = Field.val v → 0 ≤ v) →
      0 ≤ sd.profile.followsCount) ∧
    (∀ fp ∈ sd.latestPosts,
      ((∀ v, fp.stub.likesCount = Field.val v → 0 ≤ v) → 0 ≤ fp.likesCount) ∧
      ((∀ v, fp.stub.commentsCount = Field.val v → 0 ≤ v) → 0 ≤ fp.commentsCount)) := by
  obtain ⟨hmap, hfol, hfws⟩ := scrape_cons_elim h
  have hposts : ∀ fp ∈ sd.latestPosts,
      fp.likesCount = intOr0 fp.stub.likesCount ∧
      fp.commentsCount = intOr0 fp.stub.commentsCount := by
    intro fp hfp
    obtain ⟨a, _, hfa⟩ := mapOpt_mem_elim hmap fp hfp
    obtain ⟨hstub, -, hl, hc⟩ := finalizePost_some hfa
    rw [hl, hc, hstub]
    exact ⟨rfl, rfl⟩
  refine ⟨hfol, hfws, hposts, rfl, rfl, ?_, ?_, ?_⟩
  · intro hv
    rw [hfol]
    exact intOr0_nonneg hv
  · intro hv
    rw [hfws]
    exact intOr0_nonneg hv
  · intro fp hfp
    obtain ⟨hl, hc⟩ := hposts fp hfp
    exact ⟨fun hv => hl ▸ intOr0_nonneg hv, fun hv => hc ▸ intOr0_nonneg hv⟩

/-- A profile item whose source-supplied `followersCount` is negative. -/
def negCountProfile : ProfileData :=
  { username := .val "alice", fullName := .missing
    followersCount := .val (-3), followsCount := .missing
    biography := .missing, profilePicUrl := .missing
    latestPosts := .missing }

/-- Claim C6 is false as stated: the code never enforces non-negativity,
so a source payload carrying `followersCount = -3` is assembled into a
record whose followers count is `-3 < 0`. -/
theorem negative_count_passes_through :
    (scrape_instagram_profile_and_comments [negCountProfile]
        (fun _ => none) (fun _ => none)).map
      (fun sd => sd.profile.followersCount) = some (-3) ∧
    ¬ (0 : Int) ≤ (-3 : Int) := by
  exact ⟨rfl, by decide⟩

/-! ### Claims C3, C4, C5: orchestration and progress -/

/-- Claim C3: for every identity that already has an entry in the
saved-profiles cache, invoking the analysis operation performs no
scraper call and no AI call; it only sets the progress entry to the
terminal 'complete (cached)' state at percentage 100 and returns a
complete status. -/
theorem cached_hit_short_circuits (saved : List (String × FullAnalysisData))
    (username : String) (profileItems : List ProfileData)
    (imf : String → Option String) (cf : String → Option (List Comment))
    (aiResp : Option String) (d : FullAnalysisData)
    (h : lookupProfile saved username = some d) :
    perform_analysis saved username profileItems imf cf aiResp =
      { status := .completeCached
        trace := [("Analysis complete (cached)!", 100)]
        savedProfiles := saved
        scraperCalls := 0
        aiCalls := 0 } := by
  unfold perform_analysis
  rw [h]

/-- Claim C4: for every single pipeline run on one identity, the
sequence of percentages written to the progress map is, in emission
order, 0, 20, 50, 80, 100 on a successful run — a run that reaches the
terminal complete status (hence non-decreasing); on a profile-fetch
failure the run instead ends with a write of percentage 0 carrying an
error label — the only permitted regression, signalling terminal
failure.  (A scrape-successful run that hits the uncaught `KeyError` of
line 309 crashes after the 80% write and is not a successful run: it
never reaches the complete status.) -/
theorem progress_percentages (saved : List (String × FullAnalysisData))
    (username : String) (profileItems : List ProfileData)
    (imf : String → Option String) (cf : String → Option (List Comment))
    (aiResp : Option String)
    (hmiss : lookupProfile saved username = none) :
    ((perform_analysis saved username profileItems imf cf aiResp).status =
        RunStatus.complete →
      (analyze_then_perform saved username profileItems imf cf aiResp).trace.map
          Prod.snd = [0, 20, 50, 80, 100]) ∧
    (profileItems = [] →
      (analyze_then_perform saved username profileItems imf cf aiResp).trace =
        [("Initializing analysis...", 0), ("Scraping profile data...", 20),
          ("Error during data retrieval!", 0)]) := by
  constructor
  · intro hst
    cases profileItems with
    | nil =>
      rw [show perform_analysis saved username [] imf cf aiResp =
          { status := .error
            trace := [("Scraping profile data...", 20),
              ("Error during data retrieval!", 0)]
            savedProfiles := saved, scraperCalls := 1, aiCalls := 0 } by
        unfold perform_analysis; rw [hmiss]; rfl] at hst
      cases hst
    | cons pd rest =>
      cases hsd : scrape_instagram_profile_and_comments (pd :: rest) imf cf with
      | none =>
        simp only [perform_analysis, hmiss, hsd] at hst
        cases hst
      | some sd =>
        by_cases hpb : promptBuildRaises sd = true
        · simp only [perform_analysis, hmiss, hsd, hpb, if_true] at hst
          cases hst
        · simp only [Bool.not_eq_true] at hpb
          simp only [analyze_then_perform, perform_analysis, hmiss, hsd, hpb,
            Bool.false_eq_true, if_false]
          rfl
  · rintro rfl
    simp only [analyze_then_perform, perform_analysis, hmiss,
      show scrape_instagram_profile_and_comments [] imf cf = none from rfl]
    rfl

/-- Claim C5: for every run in which the profile fetch returns no items
(private or nonexistent profile), the pipeline aborts before any comment
fan-out or scoring call (no 50% emission, one scraper call, zero AI
calls), writes an error progress state with percentage 0, reports a
user-facing failure, and stores nothing in the result cache — fetching
the result for that identity afterwards finds it absent. -/
theorem empty_profile_aborts (saved : List (String × FullAnalysisData))
    (username : String) (imf : String → Option String)
    (cf : String → Option (List Comment)) (aiResp : Option String)
    (hmiss : lookupProfile saved username = none) :
    perform_analysis saved username [] imf cf aiResp =
      { status := .error
        trace := [("Scraping profile data...", 20),
          ("Error during data retrieval!", 0)]
        savedProfiles := saved
        scraperCalls := 1
        aiCalls := 0 } ∧
    lookupProfile (perform_analysis saved username [] imf cf aiResp).savedProfiles
      username = none := by
  have hperf : perform_analysis saved username [] imf cf aiResp =
      { status := .error
        trace := [("Scraping profile data...", 20),
          ("Error during data retrieval!", 0)]
        savedProfiles := saved
        scraperCalls := 1
        aiCalls := 0 } := by
    unfold perform_analysis
    rw [hmiss]
    rfl
  rw [hperf]
  exact ⟨rfl, hmiss⟩

/-! ### Claim C8: prompt previews -/

/-- Claim C8 is false as stated: the code appends the ellipsis to EVERY
non-empty caption, not only to captions longer than 100 characters; the
2-character caption `"hi"` is embedded as `"hi..."`, not as the claim's
predicted `"hi"`. -/
theorem ellipsis_always_appended :
    caption_preview (Field.val "hi") = some "hi..." ∧
    ("hi" : String).length ≤ 100 ∧
    caption_preview (Field.val "hi") ≠ some "hi" := by
  exact ⟨rfl, by decide, by decide⟩

/-- Claim C8 (amended): for every post embedded in the scoring prompt
with a non-empty caption, the caption appears truncated to its first 100
characters with the ellipsis appended unconditionally (for every
non-empty caption, not only those longer than 100 characters), and when
the post has at least one comment whose text is present and non-empty,
the first comment's text appears truncated to its first 50 characters. -/
theorem prompt_previews (idx : Nat) (post : FinalPost) (s : String) (hs : s ≠ "")
    (hcap : post.stub.caption = Field.val s) (c : Comment) (cs : List Comment)
    (hcom : post.comments = c :: cs) (t : String)
    (ht : firstCommentText c.text = some t) (ht' : t ≠ "") :
    caption_preview post.stub.caption = some (pyTake s 100 ++ "...") ∧
    first_comment_preview c = pyTake t 50 ++ "..." ∧
    (∃ pre mid, post_prompt_segment idx post =
      some (pre ++ (pyTake s 100 ++ "...") ++ mid ++
        (pyTake t 50 ++ "...") ++ "\"")) := by
  have hcp : caption_preview post.stub.caption = some (pyTake s 100 ++ "...") := by
    rw [hcap]
    simp [caption_preview, hs]
  have hfc : first_comment_preview c = pyTake t 50 ++ "..." := by
    rw [first_comment_preview, ht]
    simp [ht']
  refine ⟨hcp, hfc, ?_⟩
  refine ⟨"\n- Content " ++ toString (idx + 1) ++ " (Type: " ++ post.mediaType ++
      ", URL: " ++
      (match post.stub.shortCode.toOpt with
       | some sc =>
         if sc = "" then "N/A" else "https://www.instagram.com/p/" ++ sc ++ "/"
       | none => "N/A") ++
      ", Likes: " ++ toString post.likesCount ++ ", Comments: " ++
      toString post.commentsCount ++ "): \"",
    (if post.hashtags.isEmpty then ""
     else " #" ++ String.intercalate " #" post.hashtags) ++
      "\" First interaction: \"", ?_⟩
  rw [post_prompt_segment, hcp]
  simp only [Option.map_some', Option.some.injEq, hcom, hfc]
  simp [String.append_assoc]

/-! ### Concrete fixtures for witnesses -/

/-- An image fetcher whose request always raises. -/
def imfNone : String → Option String := fun _ => none

/-- A comment scraper whose remote call always raises. -/
def cfFail : String → Option (List Comment) := fun _ => none

/-- A fully populated post stub. -/
def stubA : PostStub :=
  { shortCode := .val "AAA", caption := .val "sunset #beach#"
    likesCount := .val 7, commentsCount := .val 2
    typename := .val "GraphImage" }

/-- A degenerate post stub: no shortcode, no caption, null/absent counts. -/
def stubB : PostStub :=
  { shortCode := .missing, caption := .missing, likesCount := .null
    commentsCount := .missing, typename := .missing }

/-- A post stub whose caption is present but null. -/
def stubNullCap : PostStub :=
  { shortCode := .val "CCC", caption := .null, likesCount := .val 1
    commentsCount := .val 0, typename := .val "GraphVideo" }

/-- Profile dataset item with two post stubs. -/
def pdTwoPosts : ProfileData :=
  { username := .val "alice", fullName := .val "Alice"
    followersCount := .val 1000, followsCount := .val 50
    biography := .val "bio", profilePicUrl := .missing
    latestPosts := .val [stubA, stubB] }

/-- Profile dataset item carrying the null-caption stub. -/
def pdNullCap : ProfileData :=
  { username := .val "carol", fullName := .missing
    followersCount := .val 10, followsCount := .val 1
    biography := .missing, profilePicUrl := .missing
    latestPosts := .val [stubNullCap] }

/-- The value `scrape_instagram_profile_and_comments [pdTwoPosts] imfNone
cfFail` computes. -/
def sdTwoPosts : ScrapedData :=
  { profile :=
      { username := some "alice", fullName := some "Alice"
        followersCount := 1000, followsCount := 50
        bio := some "bio", profilePicUrl := none
        profilePicBase64 := ""
        profileUrl := "https://www.instagram.com/alice/" }
    latestPosts :=
      [{ stub := stubA, comments := [], hashtags := ["beach"]
         likesCount := 7, commentsCount := 2, mediaType := "Image" },
       { stub := stubB, comments := [], hashtags := []
         likesCount := 0, commentsCount := 0, mediaType := "" }] }

/-- Profile dataset item whose single post carries a caption value, so
the prompt build cannot raise and the run completes. -/
def pdGood : ProfileData :=
  { username := .val "dora", fullName := .val "Dora"
    followersCount := .val 200, followsCount := .val 9
    biography := .missing, profilePicUrl := .missing
    latestPosts := .val [stubA] }

/-- A cached analysis entry for identity `"bob"`. -/
def cachedData : FullAnalysisData :=
  { profile_data :=
      { profile :=
          { username := some "bob", fullName := none
            followersCount := 10, followsCount := 2
            bio := none, profilePicUrl := none, profilePicBase64 := ""
            profileUrl := "https://www.instagram.com/bob/" }
        latestPosts := [] }
    ai_analysis := { text := "cached analysis", score := 3 } }

/-- A finalized post with one comment, for the prompt-preview witness. -/
def postW : FinalPost :=
  { stub := stubA, comments := [{ text := .val "nice shot" }]
    hashtags := ["beach"], likesCount := 7, commentsCount := 2
    mediaType := "Image" }

/-! ### Witnesses -/

theorem posts_retained_on_success_witness :
    sdTwoPosts.latestPosts.length =
      min (postsOf pdTwoPosts.latestPosts).length NUM_POSTS_TO_SCRAPE ∧
    (∀ p ∈ (postsOf pdTwoPosts.latestPosts).take NUM_POSTS_TO_SCRAPE,
      ∃ fp ∈ sdTwoPosts.latestPosts, fp.stub = p) ∧
    (∀ fp ∈ sdTwoPosts.latestPosts,
      fp.comments = scrape_comments_for_single_post cfFail fp.stub.shortCode.toOpt) ∧
    (∀ fp ∈ sdTwoPosts.latestPosts,
      (fp.stub.shortCode.toOpt = none ∨ fp.stub.shortCode.toOpt = some "" ∨
        (∃ sc, fp.stub.shortCode.toOpt = some sc ∧ cfFail sc = none)) →
      fp.comments = []) :=
  posts_retained_on_success pdTwoPosts [] imfNone cfFail sdTwoPosts (by decide)

theorem posts_in_submission_order_witness :
    sdTwoPosts.latestPosts.map FinalPost.stub =
      (postsOf pdTwoPosts.latestPosts).take NUM_POSTS_TO_SCRAPE :=
  posts_in_submission_order pdTwoPosts [] imfNone cfFail sdTwoPosts (by decide)

theorem null_caption_fails_run_witness :
    scrape_instagram_profile_and_comments (pdNullCap :: []) imfNone cfFail = none :=
  null_caption_fails_run pdNullCap [] imfNone cfFail stubNullCap (by decide) rfl

theorem counts_default_and_pass_through_witness :
    sdTwoPosts.profile.followersCount = intOr0 pdTwoPosts.followersCount ∧
    sdTwoPosts.profile.followsCount = intOr0 pdTwoPosts.followsCount ∧
    (∀ fp ∈ sdTwoPosts.latestPosts,
      fp.likesCount = intOr0 fp.stub.likesCount ∧
      fp.commentsCount = intOr0 fp.stub.commentsCount) ∧
    intOr0 Field.missing = 0 ∧ intOr0 Field.null = 0 ∧
    ((∀ v, pdTwoPosts.followersCount = Field.val v → 0 ≤ v) →
      0 ≤ sdTwoPosts.profile.followersCount) ∧
    ((∀ v, pdTwoPosts.followsCount = Field.val v → 0 ≤ v) →
      0 ≤ sdTwoPosts.profile.followsCount) ∧
    (∀ fp ∈ sdTwoPosts.latestPosts,
      ((∀ v, fp.stub.likesCount = Field.val v → 0 ≤ v) → 0 ≤ fp.likesCount) ∧
      ((∀ v, fp.stub.commentsCount = Field.val v → 0 ≤ v) →
        0 ≤ fp.commentsCount)) :=
  counts_default_and_pass_through pdTwoPosts [] imfNone cfFail sdTwoPosts (by decide)

theorem cached_hit_short_circuits_witness :
    perform_analysis [("bob", cachedData)] "bob" [pdTwoPosts] imfNone cfFail none =
      { status := .completeCached
        trace := [("Analysis complete (cached)!", 100)]
        savedProfiles := [("bob", cachedData)]
        scraperCalls := 0
        aiCalls := 0 } :=
  cached_hit_short_circuits [("bob", cachedData)] "bob" [pdTwoPosts] imfNone cfFail
    none cachedData (by decide)

theorem progress_percentages_witness :
    ((perform_analysis [] "dora" [pdGood] imfNone cfFail none).status =
        RunStatus.complete →
      (analyze_then_perform [] "dora" [pdGood] imfNone cfFail none).trace.map
          Prod.snd = [0, 20, 50, 80, 100]) ∧
    ([pdGood] = ([] : List ProfileData) →
      (analyze_then_perform [] "dora" [pdGood] imfNone cfFail none).trace =
        [("Initializing analysis...", 0), ("Scraping profile data...", 20),
          ("Error during data retrieval!", 0)]) :=
  progress_percentages [] "dora" [pdGood] imfNone cfFail none rfl

theorem empty_profile_aborts_witness :
    perform_analysis [] "alice" [] imfNone cfFail none =
      { status := .error
        trace := [("Scraping profile data...", 20),
          ("Error during data retrieval!", 0)]
        savedProfiles := []
        scraperCalls := 1
        aiCalls := 0 } ∧
    lookupProfile (perform_analysis [] "alice" [] imfNone cfFail none).savedProfiles
      "alice" = none :=
  empty_profile_aborts [] "alice" imfNone cfFail none rfl

theorem prompt_previews_witness :
    caption_preview postW.stub.caption =
      some (pyTake "sunset #beach#" 100 ++ "...") ∧
    first_comment_preview { text := .val "nice shot" } =
      pyTake "nice shot" 50 ++ "..." ∧
    (∃ pre mid, post_prompt_segment 0 postW =
      some (pre ++ (pyTake "sunset #beach#" 100 ++ "...") ++ mid ++
        (pyTake "nice shot" 50 ++ "...") ++ "\"")) :=
  prompt_previews 0 postW "sunset #beach#" (by decide) rfl
    { text := .val "nice shot" } [] rfl "nice shot" rfl (by decide)

end App
